import Mathlib

/-!
Verification of the bank-account programs of this repository.

Two programs are embedded:
* `Desafio02` — the object-oriented program `src/Desafio_02.py`
  (classes `Conta`, `ContaCorrente`, `Historico`, `Saque`, `Deposito`,
  and the menu dispatch of `main`).
* `Desadio` — the procedural program `src/desadio.py`
  (functions `depositar` and `sacar` over `saldo`, `extrato`,
  `numero_saques`).

Monetary amounts are modelled exactly as rationals (`ℚ`); the Python
programs read them as numbers and only add, subtract and compare them.
The wall-clock timestamp (`"data"` field, `datetime.now()`) stored by
`Historico.adicionar_transacao` is real time and is omitted from the
record; no claim mentions it.  The Python methods print a distinct
message in each failure branch and return `True`/`False`; each branch is
modelled by a distinct constructor of a result type, with `.toBool`
giving the boolean the Python method returns.
-/

namespace Desafio02

/-- One entry of `Historico._transacoes`: the dictionary
`{"tipo": transacao.__class__.__name__, "valor": transacao.valor, ...}`
appended by `Historico.adicionar_transacao` (the `"data"` timestamp is
omitted, see the file header). -/
structure Registro where
  tipo : String
  valor : ℚ
deriving DecidableEq

/-- The mutable state of a base `Conta`: its balance `_saldo`
(initialised to `0`) and its `Historico`, modelled as the list
`_transacoes` in append order.  The constant fields `_numero`,
`_agencia = "0001"` and `_cliente` take no part in any method modelled
here and are not carried. -/
structure Conta where
  saldo : ℚ
  historico : List Registro
deriving DecidableEq

/-- A fresh `Conta`: `_saldo = 0`, empty `Historico`. -/
def contaInicial : Conta := ⟨0, []⟩

/-- Outcome of `Conta.sacar` / `ContaCorrente.sacar`.  Each constructor
corresponds to one branch of the Python code, identified by the message
it prints:
* `ok` — "Saque realizado com sucesso!", returns `True`;
* `valorInvalido` — "O valor informado é inválido.";
* `saldoInsuficiente` — "Saldo insuficiente.";
* `excedeLimite` — "O valor do saque excede o limite."
  (only in `ContaCorrente.sacar`);
* `excedeSaques` — "Número máximo de saques excedido."
  (only in `ContaCorrente.sacar`).
All failure branches return `False`. -/
inductive ResultadoSaque
  | ok
  | valorInvalido
  | saldoInsuficiente
  | excedeLimite
  | excedeSaques
deriving DecidableEq

/-- The boolean `Conta.sacar`/`ContaCorrente.sacar` actually returns:
`True` exactly in the success branch. -/
def ResultadoSaque.toBool : ResultadoSaque → Bool
  | .ok => true
  | _ => false

/-- Outcome of `Conta.depositar`: `ok` prints
"Depósito realizado com sucesso!" and returns `True`; `valorInvalido`
prints "O valor informado é inválido." and returns `False`. -/
inductive ResultadoDeposito
  | ok
  | valorInvalido
deriving DecidableEq

/-- The boolean `Conta.depositar` returns. -/
def ResultadoDeposito.toBool : ResultadoDeposito → Bool
  | .ok => true
  | _ => false

/-- `Conta.sacar` (src/Desafio_02.py lines 64–74):
```
if valor <= 0: ... return False
if valor > self._saldo: ... return False
self._saldo -= valor
return True
```
Returned as (result, account after the call). -/
def Conta.sacar (c : Conta) (valor : ℚ) : ResultadoSaque × Conta :=
  if valor ≤ 0 then (.valorInvalido, c)
  else if valor > c.saldo then (.saldoInsuficiente, c)
  else (.ok, ⟨c.saldo - valor, c.historico⟩)

/-- `Conta.depositar` (src/Desafio_02.py lines 76–83):
```
if valor <= 0: ... return False
self._saldo += valor
return True
``` -/
def Conta.depositar (c : Conta) (valor : ℚ) : ResultadoDeposito × Conta :=
  if valor ≤ 0 then (.valorInvalido, c)
  else (.ok, ⟨c.saldo + valor, c.historico⟩)

/-- The state of a `ContaCorrente`: the inherited `Conta` state plus the
constructor parameters `_limite` (default 500) and `_limite_saques`
(default 3), both never reassigned. -/
structure ContaCorrente where
  conta : Conta
  limite : ℚ
  limite_saques : Nat
deriving DecidableEq

/-- A fresh `ContaCorrente` with the given limits. -/
def contaCorrenteInicial (limite : ℚ) (limite_saques : Nat) : ContaCorrente :=
  ⟨contaInicial, limite, limite_saques⟩

/-- The count computed at src/Desafio_02.py line 95:
`sum(1 for t in self.historico.transacoes if t["tipo"] == "Saque")`. -/
def numeroSaques (transacoes : List Registro) : Nat :=
  (transacoes.filter (fun t => t.tipo = "Saque")).length

/-- `ContaCorrente.sacar` (src/Desafio_02.py lines 93–102):
computes `numero_saques`, checks `valor > self._limite`, then
`numero_saques >= self._limite_saques`, then delegates to
`super().sacar(valor)`. -/
def ContaCorrente.sacar (cc : ContaCorrente) (valor : ℚ) :
    ResultadoSaque × ContaCorrente :=
  let numero_saques := numeroSaques cc.conta.historico
  if valor > cc.limite then (.excedeLimite, cc)
  else if numero_saques ≥ cc.limite_saques then (.excedeSaques, cc)
  else
    let rc := cc.conta.sacar valor
    (rc.1, ⟨rc.2, cc.limite, cc.limite_saques⟩)

/-- `ContaCorrente` inherits `depositar` unchanged from `Conta`. -/
def ContaCorrente.depositar (cc : ContaCorrente) (valor : ℚ) :
    ResultadoDeposito × ContaCorrente :=
  let rc := cc.conta.depositar valor
  (rc.1, ⟨rc.2, cc.limite, cc.limite_saques⟩)

/-- `Historico.adicionar_transacao` (src/Desafio_02.py lines 117–123):
appends one record with `tipo = transacao.__class__.__name__` and
`valor = transacao.valor` to `_transacoes`. -/
def Historico.adicionar_transacao (transacoes : List Registro)
    (tipo : String) (valor : ℚ) : List Registro :=
  transacoes ++ [⟨tipo, valor⟩]

/-- A `Transacao` command object: `Saque(valor)` or `Deposito(valor)`,
each holding its immutable `_valor`. -/
inductive Transacao
  | saque (valor : ℚ)
  | deposito (valor : ℚ)
deriving DecidableEq

/-- The `valor` property of a transaction: its immutable `_valor`. -/
def Transacao.valor : Transacao → ℚ
  | .saque v => v
  | .deposito v => v

/-- `transacao.__class__.__name__`, the string stored as `"tipo"` by
`Historico.adicionar_transacao`. -/
def Transacao.nomeClasse : Transacao → String
  | .saque _ => "Saque"
  | .deposito _ => "Deposito"

/-- Whether the balance-mutating call made by `registrar` on this
account state returns `True` (the condition of the `if` in
`Saque.registrar` / `Deposito.registrar`). -/
def Transacao.sucesso (t : Transacao) (c : Conta) : Bool :=
  match t with
  | .saque v => ((c.sacar v).1).toBool
  | .deposito v => ((c.depositar v).1).toBool

/-- `Saque.registrar` / `Deposito.registrar`
(src/Desafio_02.py lines 145–147 and 158–160) applied to a base
`Conta`:
```
if conta.sacar(self.valor):   # resp. conta.depositar(self.valor)
    conta.historico.adicionar_transacao(self)
``` -/
def Transacao.registrar (t : Transacao) (c : Conta) : Conta :=
  match t with
  | .saque v =>
    let rc := c.sacar v
    if (rc.1).toBool then
      ⟨rc.2.saldo, Historico.adicionar_transacao rc.2.historico "Saque" v⟩
    else rc.2
  | .deposito v =>
    let rc := c.depositar v
    if (rc.1).toBool then
      ⟨rc.2.saldo, Historico.adicionar_transacao rc.2.historico "Deposito" v⟩
    else rc.2

/-- As `Transacao.sucesso`, for a `ContaCorrente` (dynamic dispatch
selects `ContaCorrente.sacar`). -/
def Transacao.sucessoCC (t : Transacao) (cc : ContaCorrente) : Bool :=
  match t with
  | .saque v => ((cc.sacar v).1).toBool
  | .deposito v => ((cc.depositar v).1).toBool

/-- `Saque.registrar` / `Deposito.registrar` applied to a
`ContaCorrente`: identical code, but `conta.sacar` dispatches to
`ContaCorrente.sacar`. -/
def Transacao.registrarCC (t : Transacao) (cc : ContaCorrente) : ContaCorrente :=
  match t with
  | .saque v =>
    let rc := cc.sacar v
    if (rc.1).toBool then
      ⟨⟨rc.2.conta.saldo,
        Historico.adicionar_transacao rc.2.conta.historico "Saque" v⟩,
       rc.2.limite, rc.2.limite_saques⟩
    else rc.2
  | .deposito v =>
    let rc := cc.depositar v
    if (rc.1).toBool then
      ⟨⟨rc.2.conta.saldo,
        Historico.adicionar_transacao rc.2.conta.historico "Deposito" v⟩,
       rc.2.limite, rc.2.limite_saques⟩
    else rc.2

/-- A sequence of `registrar` calls on a base `Conta`, in order. -/
def aplicarTransacoes : List Transacao → Conta → Conta
  | [], c => c
  | t :: ts, c => aplicarTransacoes ts (t.registrar c)

/-- A sequence of `registrar` calls on a `ContaCorrente`, in order. -/
def aplicarTransacoesCC : List Transacao → ContaCorrente → ContaCorrente
  | [], cc => cc
  | t :: ts, cc => aplicarTransacoesCC ts (t.registrarCC cc)

/-- Count, along a sequence of `registrar` calls on a base `Conta`, of
the calls whose underlying `sacar`/`depositar` returned `True`. -/
def contarSucessos : List Transacao → Conta → Nat
  | [], _ => 0
  | t :: ts, c =>
    (if t.sucesso c then 1 else 0) + contarSucessos ts (t.registrar c)

/-- As `contarSucessos`, on a `ContaCorrente`. -/
def contarSucessosCC : List Transacao → ContaCorrente → Nat
  | [], _ => 0
  | t :: ts, cc =>
    (if t.sucessoCC cc then 1 else 0) + contarSucessosCC ts (t.registrarCC cc)

/-- A direct method call `sacar(v)` or `depositar(v)` on an account
(the raw calls of claim C1, not routed through `registrar`). -/
inductive Chamada
  | sacar (valor : ℚ)
  | depositar (valor : ℚ)
deriving DecidableEq

/-- Execute one raw call on a base `Conta`, keeping the state. -/
def Conta.chamar (c : Conta) : Chamada → Conta
  | .sacar v => (c.sacar v).2
  | .depositar v => (c.depositar v).2

/-- Execute one raw call on a `ContaCorrente` (dispatching to the
overridden `sacar`). -/
def ContaCorrente.chamar (cc : ContaCorrente) : Chamada → ContaCorrente
  | .sacar v => (cc.sacar v).2
  | .depositar v => (cc.depositar v).2

/-- A sequence of raw `sacar`/`depositar` calls on a base `Conta`. -/
def aplicarChamadas : List Chamada → Conta → Conta
  | [], c => c
  | ch :: chs, c => aplicarChamadas chs (c.chamar ch)

/-- A sequence of raw `sacar`/`depositar` calls on a `ContaCorrente`. -/
def aplicarChamadasCC : List Chamada → ContaCorrente → ContaCorrente
  | [], cc => cc
  | ch :: chs, cc => aplicarChamadasCC chs (cc.chamar ch)

/-- The global names `main` can reach: every function and class defined
at module level in src/Desafio_02.py. -/
def nomesDefinidos : List String :=
  ["Cliente", "PessoaFisica", "Conta", "ContaCorrente", "Historico",
   "Transacao", "Saque", "Deposito", "mostrar_menu",
   "buscar_cliente_por_cpf", "recuperar_primeira_conta",
   "processar_deposito", "processar_saque", "exibir_extrato", "main"]

/-- The menu dispatch of `main` (src/Desafio_02.py lines 247–263): for
each menu option, the name of the global handler the branch calls
(`none` for "q", which breaks the loop, and for unknown options, which
only print a message). -/
def despachoMenu : String → Option String
  | "d" => some "processar_deposito"
  | "s" => some "processar_saque"
  | "e" => some "exibir_extrato"
  | "nu" => some "criar_cliente"
  | "nc" => some "criar_conta"
  | "lc" => some "listar_contas"
  | _ => none

end Desafio02

namespace Desadio

/-- One line appended to the `extrato` statement string of
src/desadio.py, modelled as (label, amount): `depositar` appends
`f"Depósito: R$ {valor:.2f}\n"` and `sacar` appends
`f"Saque: R$ {valor:.2f}\n"`; the string is the concatenation of its
appended lines in order. -/
structure Linha where
  tipo : String
  valor : ℚ
deriving DecidableEq

/-- Outcome of the procedural `sacar`, one constructor per printed
message (src/desadio.py lines 31–43):
`saldoInsuficiente` — "Saldo insuficiente.";
`excedeLimite` — "O valor do saque excede o limite.";
`excedeSaques` — "Número máximo de saques excedido.";
`ok` — "Saque realizado com sucesso!";
`valorInvalido` — "O valor informado é inválido.". -/
inductive ResultadoSaque
  | ok
  | saldoInsuficiente
  | excedeLimite
  | excedeSaques
  | valorInvalido
deriving DecidableEq

/-- `sacar` (src/desadio.py lines 24–45), with the interactively read
`valor` passed as an argument:
```
excedeu_saldo = valor > saldo
excedeu_limite = valor > limite
excedeu_saques = numero_saques >= LIMITE_SAQUES
if excedeu_saldo: ...
elif excedeu_limite: ...
elif excedeu_saques: ...
elif valor > 0: saldo -= valor; extrato += ...; numero_saques += 1
else: ...
return saldo, extrato, numero_saques
```
Returned as (printed outcome, saldo, extrato, numero_saques). -/
def sacar (valor saldo : ℚ) (extrato : List Linha) (numero_saques : Nat)
    (limite : ℚ) (LIMITE_SAQUES : Nat) :
    ResultadoSaque × ℚ × List Linha × Nat :=
  let excedeu_saldo := valor > saldo
  let excedeu_limite := valor > limite
  let excedeu_saques := numero_saques ≥ LIMITE_SAQUES
  if excedeu_saldo then (.saldoInsuficiente, saldo, extrato, numero_saques)
  else if excedeu_limite then (.excedeLimite, saldo, extrato, numero_saques)
  else if excedeu_saques then (.excedeSaques, saldo, extrato, numero_saques)
  else if valor > 0 then
    (.ok, saldo - valor, extrato ++ [⟨"Saque", valor⟩], numero_saques + 1)
  else (.valorInvalido, saldo, extrato, numero_saques)

/-- `depositar` (src/desadio.py lines 12–22), with `valor` passed as an
argument; returns (success, saldo, extrato). -/
def depositar (valor saldo : ℚ) (extrato : List Linha) :
    Bool × ℚ × List Linha :=
  if valor > 0 then (true, saldo + valor, extrato ++ [⟨"Depósito", valor⟩])
  else (false, saldo, extrato)

end Desadio

/-!
## IEEE-754 binary64 model

The Python programs compute on `float`, i.e. IEEE-754 binary64.  The
rational embedding above is exact and captures every guard/branch
property, but it idealizes `+=`/`-=`: binary64 addition and
subtraction round their exact result to the nearest representable
value (ties to even).  The model below captures that rounding, for the
one claim whose truth depends on it.  Every finite binary64 value is
an integer multiple of `2 ^ (-1074)` (the subnormal quantum), so a
float amount is represented exactly as that integer multiple; the
overflow threshold `2 ^ 1024`, infinities and NaNs are outside the
range of any amount evaluated here and are not modelled.
-/

namespace Desafio02

/-- Binary length of a natural number (`bits n` is the least `b` with
`n < 2 ^ b`), computed with explicit fuel, taking 32 bits per step, so
that it evaluates by plain reduction. -/
def bitsAux : Nat → Nat → Nat
  | 0, _ => 0
  | fuel + 1, n =>
    if n = 0 then 0
    else if n < 4294967296 then bitsAux fuel (n / 2) + 1
    else bitsAux fuel (n / 4294967296) + 32

/-- Binary length: the least `b` with `n < 2 ^ b`. -/
def bits (n : Nat) : Nat := bitsAux n n

/-- Round a value `m * 2 ^ (-1074)` to the nearest IEEE-754 binary64
value (round to nearest, ties to even), returned in the same units.  A
significand of at most 53 bits is representable as is (subnormals
included); otherwise the value is rounded to the nearest multiple of
its binade's spacing `2 ^ (bits - 53)`, the even multiple on a tie. -/
def arredondaB64 (m : Int) : Int :=
  let b := bits m.natAbs
  if b ≤ 53 then m
  else
    let q : Int := ((2 ^ (b - 53) : Nat) : Int)
    let d := Int.fdiv m q
    let r := m - d * q
    if 2 * r < q then d * q
    else if q < 2 * r then (d + 1) * q
    else if d % 2 = 0 then d * q else (d + 1) * q

/-- The state of a base `Conta` under `float` semantics: the balance is
the binary64 value `saldo * 2 ^ (-1074)`. -/
structure ContaF where
  saldo : Int
  historico : List Registro
deriving DecidableEq

/-- A fresh `Conta` under `float` semantics: `_saldo = 0`. -/
def contaFInicial : ContaF := ⟨0, []⟩

/-- `Conta.sacar` (src/Desafio_02.py lines 64–74) under `float`
semantics: the guards compare the binary64 values exactly (IEEE
comparison is exact), and `self._saldo -= valor` is the correctly
rounded binary64 difference. -/
def ContaF.sacar (c : ContaF) (valor : Int) : ResultadoSaque × ContaF :=
  if valor ≤ 0 then (.valorInvalido, c)
  else if valor > c.saldo then (.saldoInsuficiente, c)
  else (.ok, ⟨arredondaB64 (c.saldo - valor), c.historico⟩)

/-- `Conta.depositar` (src/Desafio_02.py lines 76–83) under `float`
semantics: `self._saldo += valor` is the correctly rounded binary64
sum. -/
def ContaF.depositar (c : ContaF) (valor : Int) : ResultadoDeposito × ContaF :=
  if valor ≤ 0 then (.valorInvalido, c)
  else (.ok, ⟨arredondaB64 (c.saldo + valor), c.historico⟩)

/-- The binary64 value of the literal `0.1`,
`3602879701896397 * 2 ^ (-55)`, in units of `2 ^ (-1074)`.  (It is the
representable value nearest to 1/10: within half its binade's spacing
`2 ^ (-56)`, see the accuracy lemma below.) -/
def umDecimoF : Int := 3602879701896397 * ((2 ^ 1019 : Nat) : Int)

/-- The binary64 value of the literal `0.2`,
`3602879701896397 * 2 ^ (-54)`, in units of `2 ^ (-1074)`. -/
def doisDecimosF : Int := 3602879701896397 * ((2 ^ 1020 : Nat) : Int)

/-- The account the program reaches by depositing the `float` value of
`0.1` into a fresh account: its balance is exactly that value. -/
def contaDecimoF : ContaF := (contaFInicial.depositar umDecimoF).2

end Desafio02

set_option maxRecDepth 4000

/-!
## Theorems
-/

namespace Desafio02

theorem Conta.sacar_saldo_nonneg (c : Conta) (v : ℚ) (h : 0 ≤ c.saldo) :
    0 ≤ ((c.sacar v).2).saldo := by
  unfold Conta.sacar
  split_ifs with h1 h2
  · exact h
  · exact h
  · push_neg at h1 h2
    show 0 ≤ c.saldo - v
    linarith

theorem Conta.depositar_saldo_nonneg (c : Conta) (v : ℚ) (h : 0 ≤ c.saldo) :
    0 ≤ ((c.depositar v).2).saldo := by
  unfold Conta.depositar
  split_ifs with h1
  · exact h
  · push_neg at h1
    show 0 ≤ c.saldo + v
    linarith

theorem Conta.chamar_saldo_nonneg (c : Conta) (ch : Chamada) (h : 0 ≤ c.saldo) :
    0 ≤ (c.chamar ch).saldo := by
  cases ch with
  | sacar v => exact Conta.sacar_saldo_nonneg c v h
  | depositar v => exact Conta.depositar_saldo_nonneg c v h

theorem aplicarChamadas_saldo_nonneg (chs : List Chamada) (c : Conta)
    (h : 0 ≤ c.saldo) : 0 ≤ (aplicarChamadas chs c).saldo := by
  induction chs generalizing c with
  | nil => exact h
  | cons ch chs ih => exact ih _ (Conta.chamar_saldo_nonneg c ch h)

theorem ContaCorrente.sacar_saldo_nonneg_cc (cc : ContaCorrente) (v : ℚ)
    (h : 0 ≤ cc.conta.saldo) : 0 ≤ ((cc.sacar v).2).conta.saldo := by
  simp only [ContaCorrente.sacar]
  split_ifs with h1 h2
  · exact h
  · exact h
  · exact Conta.sacar_saldo_nonneg cc.conta v h

theorem ContaCorrente.chamar_saldo_nonneg_cc (cc : ContaCorrente) (ch : Chamada)
    (h : 0 ≤ cc.conta.saldo) : 0 ≤ (cc.chamar ch).conta.saldo := by
  cases ch with
  | sacar v => exact ContaCorrente.sacar_saldo_nonneg_cc cc v h
  | depositar v => exact Conta.depositar_saldo_nonneg cc.conta v h

theorem aplicarChamadasCC_saldo_nonneg (chs : List Chamada)
    (cc : ContaCorrente) (h : 0 ≤ cc.conta.saldo) :
    0 ≤ (aplicarChamadasCC chs cc).conta.saldo := by
  induction chs generalizing cc with
  | nil => exact h
  | cons ch chs ih => exact ih _ (ContaCorrente.chamar_saldo_nonneg_cc cc ch h)

/-- Claim C1: for every `Conta` (and every `ContaCorrente`, with any
limits) and every sequence of `sacar`/`depositar` calls starting from
the initial balance 0, the balance `saldo` is never negative after any
call of the sequence. -/
theorem saldo_nunca_negativo :
    (∀ chs : List Chamada, 0 ≤ (aplicarChamadas chs contaInicial).saldo) ∧
    (∀ (limite : ℚ) (limite_saques : Nat) (chs : List Chamada),
      0 ≤ (aplicarChamadasCC chs
            (contaCorrenteInicial limite limite_saques)).conta.saldo) := by
  constructor
  · intro chs
    exact aplicarChamadas_saldo_nonneg chs contaInicial le_rfl
  · intro limite limite_saques chs
    exact aplicarChamadasCC_saldo_nonneg chs _ le_rfl

end Desafio02

namespace Desafio02

theorem Conta.sacar_historico (c : Conta) (v : ℚ) :
    ((c.sacar v).2).historico = c.historico := by
  unfold Conta.sacar
  split_ifs <;> rfl

theorem Conta.depositar_historico (c : Conta) (v : ℚ) :
    ((c.depositar v).2).historico = c.historico := by
  unfold Conta.depositar
  split_ifs <;> rfl

theorem ContaCorrente.sacar_historico_cc (cc : ContaCorrente) (v : ℚ) :
    ((cc.sacar v).2).conta.historico = cc.conta.historico := by
  simp only [ContaCorrente.sacar]
  split_ifs
  · rfl
  · rfl
  · exact Conta.sacar_historico cc.conta v

theorem ContaCorrente.depositar_historico_cc (cc : ContaCorrente) (v : ℚ) :
    ((cc.depositar v).2).conta.historico = cc.conta.historico := by
  simp only [ContaCorrente.depositar]
  exact Conta.depositar_historico cc.conta v

theorem Transacao.registrar_historico (t : Transacao) (c : Conta) :
    (t.registrar c).historico =
      if t.sucesso c then
        Historico.adicionar_transacao c.historico t.nomeClasse t.valor
      else c.historico := by
  cases t with
  | saque v =>
    simp only [Transacao.registrar, Transacao.sucesso, Transacao.nomeClasse,
      Transacao.valor]
    split_ifs
    · simp [Conta.sacar_historico]
    · exact Conta.sacar_historico c v
  | deposito v =>
    simp only [Transacao.registrar, Transacao.sucesso, Transacao.nomeClasse,
      Transacao.valor]
    split_ifs
    · simp [Conta.depositar_historico]
    · exact Conta.depositar_historico c v

theorem Transacao.registrarCC_historico (t : Transacao) (cc : ContaCorrente) :
    (t.registrarCC cc).conta.historico =
      if t.sucessoCC cc then
        Historico.adicionar_transacao cc.conta.historico t.nomeClasse t.valor
      else cc.conta.historico := by
  cases t with
  | saque v =>
    simp only [Transacao.registrarCC, Transacao.sucessoCC, Transacao.nomeClasse,
      Transacao.valor]
    split_ifs
    · simp [ContaCorrente.sacar_historico_cc]
    · exact ContaCorrente.sacar_historico_cc cc v
  | deposito v =>
    simp only [Transacao.registrarCC, Transacao.sucessoCC, Transacao.nomeClasse,
      Transacao.valor]
    split_ifs
    · simp [ContaCorrente.depositar_historico_cc]
    · exact ContaCorrente.depositar_historico_cc cc v

theorem aplicarTransacoes_historico_length (ts : List Transacao) (c : Conta) :
    ((aplicarTransacoes ts c).historico).length =
      c.historico.length + contarSucessos ts c := by
  induction ts generalizing c with
  | nil => simp [aplicarTransacoes, contarSucessos]
  | cons t ts ih =>
    simp only [aplicarTransacoes, contarSucessos]
    rw [ih, Transacao.registrar_historico]
    split_ifs with h
    · simp only [Historico.adicionar_transacao, List.length_append,
        List.length_singleton]
      omega
    · omega

theorem aplicarTransacoesCC_historico_length (ts : List Transacao)
    (cc : ContaCorrente) :
    ((aplicarTransacoesCC ts cc).conta.historico).length =
      cc.conta.historico.length + contarSucessosCC ts cc := by
  induction ts generalizing cc with
  | nil => simp [aplicarTransacoesCC, contarSucessosCC]
  | cons t ts ih =>
    simp only [aplicarTransacoesCC, contarSucessosCC]
    rw [ih, Transacao.registrarCC_historico]
    split_ifs with h
    · simp only [Historico.adicionar_transacao, List.length_append,
        List.length_singleton]
      omega
    · omega

/-- Claim C2: for every account (base `Conta` and `ContaCorrente`) and
every `Saque`/`Deposito` applied through `registrar`, a record is
appended to the `Historico` exactly when the `sacar`/`depositar` call
returned success — otherwise the `Historico` is untouched — and hence
after any sequence of `registrar` calls the number of records grows by
exactly the number of successful operations. -/
theorem registro_sse_sucesso :
    (∀ (t : Transacao) (c : Conta),
      (t.registrar c).historico =
        if t.sucesso c then
          Historico.adicionar_transacao c.historico t.nomeClasse t.valor
        else c.historico) ∧
    (∀ (t : Transacao) (cc : ContaCorrente),
      (t.registrarCC cc).conta.historico =
        if t.sucessoCC cc then
          Historico.adicionar_transacao cc.conta.historico t.nomeClasse t.valor
        else cc.conta.historico) ∧
    (∀ (ts : List Transacao) (c : Conta),
      ((aplicarTransacoes ts c).historico).length =
        c.historico.length + contarSucessos ts c) ∧
    (∀ (ts : List Transacao) (cc : ContaCorrente),
      ((aplicarTransacoesCC ts cc).conta.historico).length =
        cc.conta.historico.length + contarSucessosCC ts cc) :=
  ⟨Transacao.registrar_historico, Transacao.registrarCC_historico,
   aplicarTransacoes_historico_length, aplicarTransacoesCC_historico_length⟩

theorem Conta.sacar_nao_ok (c : Conta) (v : ℚ)
    (h : ((c.sacar v).1).toBool = false) : (c.sacar v).2 = c := by
  unfold Conta.sacar at h ⊢
  split_ifs at h ⊢ <;> first | rfl | simp [ResultadoSaque.toBool] at h

theorem Conta.depositar_nao_ok (c : Conta) (v : ℚ)
    (h : ((c.depositar v).1).toBool = false) : (c.depositar v).2 = c := by
  unfold Conta.depositar at h ⊢
  split_ifs at h ⊢ <;> first | rfl | simp [ResultadoDeposito.toBool] at h

theorem ContaCorrente.sacar_nao_ok_cc (cc : ContaCorrente) (v : ℚ)
    (h : ((cc.sacar v).1).toBool = false) : (cc.sacar v).2 = cc := by
  simp only [ContaCorrente.sacar] at h ⊢
  split_ifs at h ⊢
  · rfl
  · rfl
  · rw [Conta.sacar_nao_ok cc.conta v h]

theorem ContaCorrente.depositar_nao_ok_cc (cc : ContaCorrente) (v : ℚ)
    (h : ((cc.depositar v).1).toBool = false) : (cc.depositar v).2 = cc := by
  simp only [ContaCorrente.depositar] at h ⊢
  rw [Conta.depositar_nao_ok cc.conta v h]

theorem Transacao.registrar_falha (t : Transacao) (c : Conta)
    (h : t.sucesso c = false) : t.registrar c = c := by
  cases t with
  | saque v =>
    simp only [Transacao.sucesso] at h
    simp only [Transacao.registrar, h, Bool.false_eq_true, if_false]
    exact Conta.sacar_nao_ok c v h
  | deposito v =>
    simp only [Transacao.sucesso] at h
    simp only [Transacao.registrar, h, Bool.false_eq_true, if_false]
    exact Conta.depositar_nao_ok c v h

theorem Transacao.registrarCC_falha (t : Transacao) (cc : ContaCorrente)
    (h : t.sucessoCC cc = false) : t.registrarCC cc = cc := by
  cases t with
  | saque v =>
    simp only [Transacao.sucessoCC] at h
    simp only [Transacao.registrarCC, h, Bool.false_eq_true, if_false]
    exact ContaCorrente.sacar_nao_ok_cc cc v h
  | deposito v =>
    simp only [Transacao.sucessoCC] at h
    simp only [Transacao.registrarCC, h, Bool.false_eq_true, if_false]
    exact ContaCorrente.depositar_nao_ok_cc cc v h

/-- Claim C8: when a withdraw/deposit applied through `registrar`
reports failure, the account (balance and `Historico` alike) is left
exactly as it was: balance mutation and ledger append happen together
on success or not at all. -/
theorem falha_sem_mutacao :
    (∀ (t : Transacao) (c : Conta), t.sucesso c = false → t.registrar c = c) ∧
    (∀ (t : Transacao) (cc : ContaCorrente),
      t.sucessoCC cc = false → t.registrarCC cc = cc) :=
  ⟨Transacao.registrar_falha, Transacao.registrarCC_falha⟩

/-- Witness for C8: a withdrawal of 5 from a fresh empty account fails
and leaves the account untouched; a deposit of 0 on a fresh
`ContaCorrente` fails and leaves it untouched. -/
theorem falha_sem_mutacao_witness :
    (Transacao.saque 5).sucesso contaInicial = false ∧
    (Transacao.saque 5).registrar contaInicial = contaInicial ∧
    (Transacao.deposito 0).sucessoCC (contaCorrenteInicial 500 3) = false ∧
    (Transacao.deposito 0).registrarCC (contaCorrenteInicial 500 3) =
      contaCorrenteInicial 500 3 :=
  ⟨by decide, falha_sem_mutacao.1 _ _ (by decide), by decide,
   falha_sem_mutacao.2 _ _ (by decide)⟩

end Desafio02

namespace Desafio02

/-- Claim C5: for the base `Conta`, `sacar v` fails with the
invalid-amount message and leaves the account unchanged when `v ≤ 0`;
fails with the insufficient-balance message and leaves the account
unchanged when `0 < v` and `saldo < v`; otherwise debits `saldo` by
exactly `v` and returns success — and success happens in exactly that
remaining case, so no other condition causes a failure. -/
theorem conta_sacar_contrato (c : Conta) (v : ℚ) :
    (v ≤ 0 → c.sacar v = (.valorInvalido, c)) ∧
    (0 < v → c.saldo < v → c.sacar v = (.saldoInsuficiente, c)) ∧
    (0 < v → v ≤ c.saldo → c.sacar v = (.ok, ⟨c.saldo - v, c.historico⟩)) ∧
    ((c.sacar v).1 = .ok ↔ 0 < v ∧ v ≤ c.saldo) := by
  refine ⟨fun h => ?_, fun h1 h2 => ?_, fun h1 h2 => ?_, ?_⟩
  · unfold Conta.sacar
    rw [if_pos h]
  · unfold Conta.sacar
    rw [if_neg (not_le.mpr h1), if_pos h2]
  · unfold Conta.sacar
    rw [if_neg (not_le.mpr h1), if_neg (not_lt.mpr h2)]
  · unfold Conta.sacar
    split_ifs with h1 h2
    · simp only [reduceCtorEq, false_iff, not_and]
      intro hv
      exact absurd h1 (not_le.mpr hv)
    · simp only [reduceCtorEq, false_iff, not_and]
      intro _ hle
      exact absurd h2 (not_lt.mpr hle)
    · push_neg at h1 h2
      simp only [true_iff]
      exact ⟨h1, h2⟩

/-- Witness for C5: on a `Conta` with balance 10, withdrawing −3 fails
as invalid, withdrawing 15 fails as insufficient, withdrawing 4
succeeds and debits exactly 4. -/
theorem conta_sacar_contrato_witness :
    Conta.sacar ⟨10, []⟩ (-3) = (.valorInvalido, ⟨10, []⟩) ∧
    Conta.sacar ⟨10, []⟩ 15 = (.saldoInsuficiente, ⟨10, []⟩) ∧
    Conta.sacar ⟨10, []⟩ 4 = (.ok, ⟨10 - 4, []⟩) :=
  ⟨(conta_sacar_contrato ⟨10, []⟩ (-3)).1 (by norm_num),
   (conta_sacar_contrato ⟨10, []⟩ 15).2.1 (by norm_num) (by norm_num),
   (conta_sacar_contrato ⟨10, []⟩ 4).2.2.1 (by norm_num) (by norm_num)⟩

/-- Claim C6: for every account (base `Conta` and `ContaCorrente`,
which inherits `depositar`), `depositar v` fails with the
invalid-amount message and leaves the balance unchanged whenever
`v ≤ 0`, and otherwise credits `saldo` by exactly `v` and returns
success. -/
theorem depositar_contrato :
    (∀ (c : Conta) (v : ℚ),
      (v ≤ 0 → c.depositar v = (.valorInvalido, c)) ∧
      (0 < v → c.depositar v = (.ok, ⟨c.saldo + v, c.historico⟩))) ∧
    (∀ (cc : ContaCorrente) (v : ℚ),
      (v ≤ 0 → cc.depositar v = (.valorInvalido, cc)) ∧
      (0 < v → cc.depositar v =
        (.ok, ⟨⟨cc.conta.saldo + v, cc.conta.historico⟩,
               cc.limite, cc.limite_saques⟩))) := by
  constructor
  · intro c v
    refine ⟨fun h => ?_, fun h => ?_⟩
    · unfold Conta.depositar
      rw [if_pos h]
    · unfold Conta.depositar
      rw [if_neg (not_le.mpr h)]
  · intro cc v
    refine ⟨fun h => ?_, fun h => ?_⟩
    · simp only [ContaCorrente.depositar]
      unfold Conta.depositar
      rw [if_pos h]
    · simp only [ContaCorrente.depositar]
      unfold Conta.depositar
      rw [if_neg (not_le.mpr h)]

/-- Witness for C6: depositing 0 on a `Conta` with balance 10 fails and
changes nothing; depositing 5 credits exactly 5; the same two facts on
a fresh `ContaCorrente`. -/
theorem depositar_contrato_witness :
    Conta.depositar ⟨10, []⟩ 0 = (.valorInvalido, ⟨10, []⟩) ∧
    Conta.depositar ⟨10, []⟩ 5 = (.ok, ⟨10 + 5, []⟩) ∧
    ContaCorrente.depositar ⟨⟨0, []⟩, 500, 3⟩ (-2) =
      (.valorInvalido, ⟨⟨0, []⟩, 500, 3⟩) ∧
    ContaCorrente.depositar ⟨⟨0, []⟩, 500, 3⟩ 7 =
      (.ok, ⟨⟨0 + 7, []⟩, 500, 3⟩) :=
  ⟨(depositar_contrato.1 ⟨10, []⟩ 0).1 (by norm_num),
   (depositar_contrato.1 ⟨10, []⟩ 5).2 (by norm_num),
   (depositar_contrato.2 ⟨⟨0, []⟩, 500, 3⟩ (-2)).1 (by norm_num),
   (depositar_contrato.2 ⟨⟨0, []⟩, 500, 3⟩ 7).2 (by norm_num)⟩

/-- Claim C10, amended: on any base `Conta` state (all of which have
`saldo ≥ 0`, see `saldo_nunca_negativo`), for `v > 0` a `depositar v`
followed by a `sacar v` has both calls succeed and — with the amounts
combined in exact (rational) arithmetic — returns `saldo` to its value
before the pair of calls.  As stated, with the program's binary64
arithmetic, the claim is false: both calls still succeed but the exact
identity can fail by a rounding error (see the counterexample at the
end of this file). -/
theorem depositar_depois_sacar_roundtrip (c : Conta) (v : ℚ)
    (hs : 0 ≤ c.saldo) (hv : 0 < v) :
    (c.depositar v).1 = .ok ∧
    (((c.depositar v).2).sacar v).1 = .ok ∧
    ((((c.depositar v).2).sacar v).2).saldo = c.saldo := by
  have hd : c.depositar v = (.ok, ⟨c.saldo + v, c.historico⟩) := by
    unfold Conta.depositar
    rw [if_neg (not_le.mpr hv)]
  rw [hd]
  have hw : Conta.sacar ⟨c.saldo + v, c.historico⟩ v =
      (.ok, ⟨c.saldo + v - v, c.historico⟩) := by
    unfold Conta.sacar
    rw [if_neg (not_le.mpr hv),
      if_neg (by show ¬ v > c.saldo + v; push_neg; linarith)]
  rw [hw]
  refine ⟨rfl, rfl, ?_⟩
  show c.saldo + v - v = c.saldo
  ring

/-- Witness for C10: on a `Conta` with balance 7, depositing 2 then
withdrawing 2 succeeds twice and restores the balance 7. -/
theorem depositar_depois_sacar_roundtrip_witness :
    ((Conta.depositar ⟨7, []⟩ 2).1 = .ok) ∧
    ((Conta.depositar ⟨7, []⟩ 2).2.sacar 2).1 = .ok ∧
    (((Conta.depositar ⟨7, []⟩ 2).2.sacar 2).2).saldo = 7 :=
  depositar_depois_sacar_roundtrip ⟨7, []⟩ 2 (by norm_num) (by norm_num)

/-- Claim C3: in `ContaCorrente.sacar` the ceiling check comes first
(whenever `v` exceeds the ceiling the reported failure is the ceiling
one, regardless of any other violated condition), then the
withdrawal-count check, and only then the base validations; in
particular a request exceeding the balance but within the ceiling, with
quota remaining, fails as insufficient balance, not as ceiling
exceeded. -/
theorem cc_sacar_ordem_verificacoes :
    (∀ (cc : ContaCorrente) (v : ℚ),
      cc.limite < v → (cc.sacar v).1 = .excedeLimite) ∧
    (∀ (cc : ContaCorrente) (v : ℚ),
      v ≤ cc.limite → cc.limite_saques ≤ numeroSaques cc.conta.historico →
      (cc.sacar v).1 = .excedeSaques) ∧
    (∀ (cc : ContaCorrente) (v : ℚ),
      0 ≤ cc.conta.saldo → v ≤ cc.limite →
      numeroSaques cc.conta.historico < cc.limite_saques →
      cc.conta.saldo < v → (cc.sacar v).1 = .saldoInsuficiente) := by
  refine ⟨fun cc v h => ?_, fun cc v h1 h2 => ?_, fun cc v h0 h1 h2 h3 => ?_⟩
  · simp only [ContaCorrente.sacar]
    rw [if_pos h]
  · simp only [ContaCorrente.sacar]
    rw [if_neg (not_lt.mpr h1), if_pos h2]
  · simp only [ContaCorrente.sacar]
    rw [if_neg (not_lt.mpr h1), if_neg (not_le.mpr h2)]
    show (Conta.sacar cc.conta v).1 = .saldoInsuficiente
    unfold Conta.sacar
    rw [if_neg (not_le.mpr (lt_of_le_of_lt h0 h3)), if_pos h3]

/-- Witness for C3: with ceiling 500 and max 3 withdrawals —
withdrawing 600 from a balance of 10 reports the ceiling error;
withdrawing 100 with 3 recorded withdrawals reports the count error;
withdrawing 100 from a balance of 10 with no recorded withdrawals
reports insufficient balance. -/
theorem cc_sacar_ordem_verificacoes_witness :
    ((⟨⟨10, []⟩, 500, 3⟩ : ContaCorrente).sacar 600).1 = .excedeLimite ∧
    ((⟨⟨1000, [⟨"Saque", 1⟩, ⟨"Saque", 1⟩, ⟨"Saque", 1⟩]⟩, 500, 3⟩ :
        ContaCorrente).sacar 100).1 = .excedeSaques ∧
    ((⟨⟨10, []⟩, 500, 3⟩ : ContaCorrente).sacar 100).1 = .saldoInsuficiente :=
  ⟨cc_sacar_ordem_verificacoes.1 _ 600 (by norm_num),
   cc_sacar_ordem_verificacoes.2.1 _ 100 (by norm_num) (by decide),
   cc_sacar_ordem_verificacoes.2.2 _ 100 (by norm_num) (by norm_num)
     (by decide) (by norm_num)⟩

end Desafio02

namespace Desafio02

theorem numeroSaques_append (l : List Registro) (r : Registro) :
    numeroSaques (l ++ [r]) =
      numeroSaques l + (if r.tipo = "Saque" then 1 else 0) := by
  simp only [numeroSaques, List.filter_append, List.length_append]
  split_ifs with h
  · simp [List.filter, h]
  · simp [List.filter, h]

theorem ContaCorrente.sacar_limite_saques (cc : ContaCorrente) (v : ℚ) :
    ((cc.sacar v).2).limite_saques = cc.limite_saques := by
  simp only [ContaCorrente.sacar]
  split_ifs <;> rfl

theorem ContaCorrente.depositar_limite_saques (cc : ContaCorrente) (v : ℚ) :
    ((cc.depositar v).2).limite_saques = cc.limite_saques := rfl

theorem Transacao.registrarCC_limite_saques (t : Transacao)
    (cc : ContaCorrente) :
    (t.registrarCC cc).limite_saques = cc.limite_saques := by
  cases t with
  | saque v =>
    simp only [Transacao.registrarCC]
    split_ifs
    · exact ContaCorrente.sacar_limite_saques cc v
    · exact ContaCorrente.sacar_limite_saques cc v
  | deposito v =>
    simp only [Transacao.registrarCC]
    split_ifs
    · exact ContaCorrente.depositar_limite_saques cc v
    · exact ContaCorrente.depositar_limite_saques cc v

theorem aplicarTransacoesCC_limite_saques (ts : List Transacao)
    (cc : ContaCorrente) :
    (aplicarTransacoesCC ts cc).limite_saques = cc.limite_saques := by
  induction ts generalizing cc with
  | nil => rfl
  | cons t ts ih =>
    simp only [aplicarTransacoesCC]
    rw [ih, Transacao.registrarCC_limite_saques]

theorem ContaCorrente.sacar_ok_numeroSaques (cc : ContaCorrente) (v : ℚ)
    (h : ((cc.sacar v).1).toBool = true) :
    numeroSaques cc.conta.historico < cc.limite_saques := by
  simp only [ContaCorrente.sacar] at h
  split_ifs at h with h1 h2
  · simp [ResultadoSaque.toBool] at h
  · simp [ResultadoSaque.toBool] at h
  · exact not_le.mp h2

theorem Transacao.registrarCC_numeroSaques (t : Transacao)
    (cc : ContaCorrente)
    (h : numeroSaques cc.conta.historico ≤ cc.limite_saques) :
    numeroSaques ((t.registrarCC cc).conta.historico) ≤
      (t.registrarCC cc).limite_saques := by
  rw [Transacao.registrarCC_limite_saques, Transacao.registrarCC_historico]
  split_ifs with hs
  · rw [Historico.adicionar_transacao, numeroSaques_append]
    split_ifs with ht
    · cases t with
      | saque v =>
        simp only [Transacao.sucessoCC] at hs
        have := ContaCorrente.sacar_ok_numeroSaques cc v hs
        omega
      | deposito v => simp [Transacao.nomeClasse] at ht
    · omega
  · exact h

theorem aplicarTransacoesCC_numeroSaques (ts : List Transacao)
    (cc : ContaCorrente)
    (h : numeroSaques cc.conta.historico ≤ cc.limite_saques) :
    numeroSaques ((aplicarTransacoesCC ts cc).conta.historico) ≤
      (aplicarTransacoesCC ts cc).limite_saques := by
  induction ts generalizing cc with
  | nil => exact h
  | cons t ts ih =>
    exact ih _ (Transacao.registrarCC_numeroSaques t cc h)

/-- Claim C7: along any sequence of `Saque`/`Deposito` transactions
applied through `registrar` to a fresh `ContaCorrente`, the number of
`"Saque"` records in its `Historico` never exceeds its
`limite_saques`; and on any `ContaCorrente` with ceiling 500 and
maximum 3 whose history already holds 3 withdrawal records, a further
withdrawal of any positive amount within balance and ceiling fails
with the too-many-withdrawals message and changes nothing. -/
theorem limite_saques_invariante :
    (∀ (limite : ℚ) (limite_saques : Nat) (ts : List Transacao),
      numeroSaques ((aplicarTransacoesCC ts
          (contaCorrenteInicial limite limite_saques)).conta.historico) ≤
        limite_saques) ∧
    (∀ (cc : ContaCorrente) (v : ℚ),
      cc.limite = 500 → cc.limite_saques = 3 →
      numeroSaques cc.conta.historico = 3 →
      0 < v → v ≤ cc.conta.saldo → v ≤ 500 →
      cc.sacar v = (.excedeSaques, cc)) := by
  constructor
  · intro limite limite_saques ts
    have h0 : numeroSaques (contaCorrenteInicial limite
        limite_saques).conta.historico ≤
        (contaCorrenteInicial limite limite_saques).limite_saques :=
      Nat.zero_le _
    have h := aplicarTransacoesCC_numeroSaques ts _ h0
    rwa [aplicarTransacoesCC_limite_saques] at h
  · intro cc v hlim hls hcount hv hvs hv500
    simp only [ContaCorrente.sacar]
    rw [← hlim] at hv500
    rw [if_neg (not_lt.mpr hv500), if_pos (by rw [hcount, hls])]

/-- Witness for C7: a `ContaCorrente` with ceiling 500, maximum 3,
balance 1000 and three `"Saque"` records refuses a 4th withdrawal
of 50 with the too-many-withdrawals message. -/
theorem limite_saques_invariante_witness :
    (⟨⟨1000, [⟨"Saque", 100⟩, ⟨"Saque", 100⟩, ⟨"Saque", 100⟩]⟩, 500, 3⟩ :
        ContaCorrente).sacar 50 =
      (.excedeSaques,
       ⟨⟨1000, [⟨"Saque", 100⟩, ⟨"Saque", 100⟩, ⟨"Saque", 100⟩]⟩, 500, 3⟩) :=
  limite_saques_invariante.2 _ 50 rfl rfl (by decide) (by norm_num)
    (by norm_num) (by norm_num)

/-- Claim C4: the menu loop of `main` routes the options `"nu"`, `"nc"`
and `"lc"` to the global names `criar_cliente`, `criar_conta` and
`listar_contas`, and none of these names is defined anywhere in the
module, so each of those menu options raises an unhandled `NameError`
instead of performing its documented action. -/
theorem menu_handlers_indefinidos :
    despachoMenu "nu" = some "criar_cliente" ∧
    despachoMenu "nc" = some "criar_conta" ∧
    despachoMenu "lc" = some "listar_contas" ∧
    "criar_cliente" ∉ nomesDefinidos ∧
    "criar_conta" ∉ nomesDefinidos ∧
    "listar_contas" ∉ nomesDefinidos := by decide

end Desafio02

namespace Desadio

/-- Claim C9: in the procedural `sacar`, the insufficient-balance check
comes before the ceiling and count checks: whenever the requested
amount exceeds both the balance and the limit, the printed failure is
"Saldo insuficiente." and `saldo`, `extrato` and `numero_saques` are
returned unchanged. -/
theorem sacar_saldo_verificado_primeiro (valor saldo : ℚ)
    (extrato : List Linha) (numero_saques : Nat) (limite : ℚ)
    (LIMITE_SAQUES : Nat) (h1 : saldo < valor) (_h2 : limite < valor) :
    sacar valor saldo extrato numero_saques limite LIMITE_SAQUES =
      (.saldoInsuficiente, saldo, extrato, numero_saques) := by
  simp only [sacar]
  rw [if_pos h1]

/-- Witness for C9: withdrawing 100 with balance 10 and limit 50
reports insufficient balance and returns the state unchanged. -/
theorem sacar_saldo_verificado_primeiro_witness :
    sacar 100 10 [] 0 50 3 = (.saldoInsuficiente, 10, [], 0) :=
  sacar_saldo_verificado_primeiro 100 10 [] 0 50 3 (by norm_num) (by norm_num)

end Desadio

namespace Desafio02

/-- The constants used as `float` inputs are faithful: `umDecimoF` and
`doisDecimosF` are representable binary64 values (fixed points of the
rounding), and each lies within half its binade's spacing — `2 ^ (-57)`
around 1/10, `2 ^ (-56)` around 1/5 — so each is the binary64 value the
program parses from the literals `0.1` and `0.2`. -/
theorem entradasFloat_fieis :
    arredondaB64 umDecimoF = umDecimoF ∧
    arredondaB64 doisDecimosF = doisDecimosF ∧
    ((1 : ℚ) / 10 < (umDecimoF : ℚ) / 2 ^ 1074 ∧
      (umDecimoF : ℚ) / 2 ^ 1074 - 1 / 10 < 1 / 2 ^ 57) ∧
    ((1 : ℚ) / 5 < (doisDecimosF : ℚ) / 2 ^ 1074 ∧
      (doisDecimosF : ℚ) / 2 ^ 1074 - 1 / 5 < 1 / 2 ^ 56) := by
  refine ⟨by decide, by decide, ⟨?_, ?_⟩, ⟨?_, ?_⟩⟩ <;>
    · push_cast [umDecimoF, doisDecimosF]
      norm_num

/-- Counterexample to claim C10 as stated of the program: under the
program's IEEE-754 binary64 (`float`) arithmetic, starting from the
reachable account holding the `float` value of 0.1, depositing the
`float` value of 0.2 and then withdrawing that same positive amount
has both calls succeed, yet leaves the balance different from the one
before the pair of calls (`0.1 + 0.2 - 0.2` computes to
`0.10000000000000003`, not `0.1`). -/
theorem roundtrip_float_contraexemplo :
    0 < doisDecimosF ∧
    (contaDecimoF.depositar doisDecimosF).1 = .ok ∧
    (((contaDecimoF.depositar doisDecimosF).2).sacar doisDecimosF).1 = .ok ∧
    ((((contaDecimoF.depositar doisDecimosF).2).sacar doisDecimosF).2).saldo ≠
      contaDecimoF.saldo := by
  refine ⟨by decide, by decide, by decide, by decide⟩

end Desafio02
